import Mathlib

/-!
Verification of the Voice Prompt Studio session relay.

Shallow embedding of the two source files:
  backend/app/services/gemini_service.py  (enrichment client)
  backend/app/main.py                     (session orchestrator, outbound guard,
                                           transcript accumulator, STT bridge glue)

External library effects (the HTTP transport, `json.loads`, the websocket write)
are supplied by the environment as explicit parameters; everything else is a
direct translation of the Python control flow.
-/

namespace VoicePromptStudio

/-- A JSON value, as produced by `json.loads` / consumed by `json.dumps`. -/
inductive JsonVal where
  | null
  | bool (b : Bool)
  | num (q : Rat)
  | str (s : String)
  | arr (elems : List JsonVal)
  | obj (fields : List (String × JsonVal))

/-- Lookup of a key in a JSON object (Python `dict` access; keys are unique). -/
def getKey (o : List (String × JsonVal)) (k : String) : Option JsonVal :=
  (o.find? (fun p => p.1 = k)).map (fun p => p.2)

/-- Python dict key assignment `o[k] = v`, modelled up to iteration order
(nothing in the program observes the order of the result dict's keys). -/
def setKey (o : List (String × JsonVal)) (k : String) (v : JsonVal) :
    List (String × JsonVal) :=
  (k, v) :: o.filter (fun p => ¬ (p.1 = k))

/-- Python truthiness of a JSON value (`if not x: ...`). -/
def truthy : JsonVal → Bool
  | JsonVal.null => false
  | JsonVal.bool b => b
  | JsonVal.num q => decide (q ≠ 0)
  | JsonVal.str s => decide (s ≠ "")
  | JsonVal.arr elems => decide (¬ elems.isEmpty)
  | JsonVal.obj fields => decide (¬ fields.isEmpty)

/-- Python `v.get(k, default)`: raises AttributeError unless `v` is a dict;
the caller in gemini_service catches that as a generic exception. -/
def pyGet (v : JsonVal) (k : String) (default : JsonVal) :
    Except String JsonVal :=
  match v with
  | JsonVal.obj o => Except.ok ((getKey o k).getD default)
  | _ => Except.error "AttributeError"

/-- Python `v[0]` on a JSON value (the exception-raising cases are folded into
an error string; the caller reaches this only after a truthiness check). -/
def pyIndexZero : JsonVal → Except String JsonVal
  | JsonVal.arr (x :: _) => Except.ok x
  | JsonVal.arr [] => Except.error "IndexError"
  | JsonVal.str s =>
      if s = "" then Except.error "IndexError"
      else Except.ok (JsonVal.str (String.singleton s.front))
  | JsonVal.obj _ => Except.error "KeyError"
  | _ => Except.error "TypeError"

/-- gemini_service.py lines 39-41. -/
inductive ProcessingMode where
  | STRICT
  | BALANCED
deriving DecidableEq, Repr

/-- gemini_service.py lines 62-80 (verbatim system prompt for strict mode). -/
def STRICT_SYSTEM_PROMPT : String :=
  "You are a transcription cleaner and prompt composer. Your job is to:\n1. Clean speech transcriptions while STRICTLY preserving meaning\n2. Translate Tamil/Hindi/Tunglish to English without losing ANY nuance\n3. Convert the cleaned text into a structured prompt format\n\nSTRICT RULES - NEVER VIOLATE:\n- NEVER change numbers (42 stays 42, not \"forty-two\" or \"around forty\")\n- NEVER change URLs, file paths, or code tokens\n- NEVER change proper nouns, names, or technical terms\n- NEVER add information that wasn\x27t in the original\n- NEVER remove information that was clearly intentional\n- Only remove: \"um\", \"uh\", \"like\", \"you know\", hesitations, false starts, repetitions\n\nFor Tunglish (Tamil-English mix): Translate the Tamil parts to English while keeping English parts intact.\nFor pure Tamil/Hindi: Translate to natural English while preserving the exact meaning.\n\nIf translation is ambiguous, set meaning_change_risk to \"high\" and provide the most literal interpretation.\n\nIMPORTANT: Respond ONLY with valid JSON matching the schema provided. No markdown, no extra text."

/-- gemini_service.py lines 82-98 (verbatim system prompt for balanced mode). -/
def BALANCED_SYSTEM_PROMPT : String :=
  "You are a transcription cleaner and prompt composer. Your job is to:\n1. Clean speech transcriptions while preserving core meaning\n2. Translate Tamil/Hindi/Tunglish to clear, natural English\n3. Convert the cleaned text into a well-structured prompt format\n\nRULES:\n- NEVER change numbers, URLs, file paths, code tokens, proper nouns\n- Remove fillers, hesitations, false starts, repetitions\n- Improve clarity and structure while keeping the intent\n- For prompts: add appropriate structure (bullet points, sections) if it improves clarity\n\nFor Tunglish (Tamil-English mix): Translate naturally, combining Tamil and English parts into fluent English.\nFor pure Tamil/Hindi: Translate to natural, idiomatic English.\n\nBalance natural expression with faithfulness to the original intent.\n\nIMPORTANT: Respond ONLY with valid JSON matching the schema provided. No markdown, no extra text."

/-- gemini_service.py line 194:
`system_prompt = STRICT_SYSTEM_PROMPT if mode == ProcessingMode.STRICT else BALANCED_SYSTEM_PROMPT`. -/
def select_system_prompt (mode : ProcessingMode) : String :=
  if mode = ProcessingMode.STRICT then STRICT_SYSTEM_PROMPT
  else BALANCED_SYSTEM_PROMPT

/-- gemini_service.py lines 277-289. -/
def create_fallback_response (raw_transcript : String) (error : String) :
    List (String × JsonVal) :=
  [("error", JsonVal.str error),
   ("detected_languages", JsonVal.arr [JsonVal.str "unknown"]),
   ("raw_transcript", JsonVal.str raw_transcript),
   ("cleaned_english_meaning", JsonVal.str raw_transcript),
   ("prompt_ready_english", JsonVal.str raw_transcript),
   ("removed_fillers", JsonVal.bool false),
   ("meaning_change_risk", JsonVal.str "high"),
   ("entities", JsonVal.arr []),
   ("confidence_score", JsonVal.num 0)]

/-- The outcome of the HTTP call to the Gemini endpoint, as seen by
`process_transcript`: a timeout, some other transport/runtime exception
(carrying `str(e)`), or an HTTP response whose body parsed via
`response.json()` to the given JSON value. -/
inductive CallOutcome where
  | timeout
  | exn (msg : String)
  | response (status : Nat) (body : JsonVal)

/-- The try-block of `process_transcript` (gemini_service.py lines 231-267):
navigates the response body and either yields the parsed output object or the
error string used to build the fallback. `loads` stands for Python
`json.loads` applied to the generated text (`none` = JSONDecodeError); a
parse result that is not a JSON object makes the subsequent item assignment
raise, which the outer handler also converts to a fallback. -/
def extract_output (loads : String → Option JsonVal) (outcome : CallOutcome) :
    Except String (List (String × JsonVal)) :=
  match outcome with
  | CallOutcome.timeout => Except.error "API timeout"
  | CallOutcome.exn msg => Except.error msg
  | CallOutcome.response status body =>
    if status ≠ 200 then Except.error ("API error: " ++ toString status)
    else
      match pyGet body "candidates" (JsonVal.arr []) with
      | Except.error e => Except.error e
      | Except.ok candidates =>
        if truthy candidates = false then Except.error "No response from Gemini"
        else
          match pyIndexZero candidates with
          | Except.error e => Except.error e
          | Except.ok c0 =>
            match pyGet c0 "content" (JsonVal.obj []) with
            | Except.error e => Except.error e
            | Except.ok content =>
              match pyGet content "parts" (JsonVal.arr []) with
              | Except.error e => Except.error e
              | Except.ok parts =>
                if truthy parts = false then
                  Except.error "Empty response from Gemini"
                else
                  match pyIndexZero parts with
                  | Except.error e => Except.error e
                  | Except.ok p0 =>
                    match pyGet p0 "text" (JsonVal.str "") with
                    | Except.error e => Except.error e
                    | Except.ok textv =>
                      match textv with
                      | JsonVal.str text =>
                        match loads text with
                        | none => Except.error "Invalid JSON from Gemini"
                        | some (JsonVal.obj output) => Except.ok output
                        | some _ => Except.error "TypeError"
                      | _ => Except.error "TypeError"

/-- gemini_service.py lines 161-274. `api_key` is the result of
`get_gemini_api_key()`; `context` and `previous_turns` only shape the request
payload and do not influence the returned value. -/
def process_transcript (loads : String → Option JsonVal)
    (api_key : Option String) (raw_transcript : String)
    (mode : ProcessingMode) (context : Option String)
    (previous_turns : List (String × String)) (outcome : CallOutcome) :
    List (String × JsonVal) :=
  match api_key with
  | none =>
    [("error", JsonVal.str "Gemini API key not configured"),
     ("raw_transcript", JsonVal.str raw_transcript),
     ("cleaned_english_meaning", JsonVal.str raw_transcript),
     ("prompt_ready_english", JsonVal.str raw_transcript),
     ("detected_languages", JsonVal.arr [JsonVal.str "unknown"]),
     ("meaning_change_risk", JsonVal.str "high"),
     ("entities", JsonVal.arr []),
     ("confidence_score", JsonVal.num 0)]
  | some _ =>
    match extract_output loads outcome with
    | Except.error e => create_fallback_response raw_transcript e
    | Except.ok output => setKey output "raw_transcript" (JsonVal.str raw_transcript)

/-- Whether a JSON value is a string. -/
def isStr : JsonVal → Bool
  | JsonVal.str _ => true
  | _ => false

/-- Whether a JSON value is a boolean. -/
def isBool : JsonVal → Bool
  | JsonVal.bool _ => true
  | _ => false

/-- Conformance of one element of the `entities` array to the schema of
`get_json_schema` (gemini_service.py lines 132-141). -/
def entity_ok : JsonVal → Bool
  | JsonVal.obj e =>
    (match getKey e "text" with | some (JsonVal.str _) => true | _ => false) &&
    (match getKey e "type" with | some (JsonVal.str _) => true | _ => false)
  | _ => false

/-- Conformance to the response schema declared by `get_json_schema`
(gemini_service.py lines 101-158): each required key present with the
declared type, `meaning_change_risk` drawn from its enum; `removed_fillers`
is optional (it is absent from the `required` list) but must be a boolean
when present. -/
def matches_schema (v : JsonVal) : Bool :=
  match v with
  | JsonVal.obj o =>
    (match getKey o "detected_languages" with
      | some (JsonVal.arr xs) => xs.all isStr | _ => false) &&
    (match getKey o "raw_transcript" with
      | some (JsonVal.str _) => true | _ => false) &&
    (match getKey o "cleaned_english_meaning" with
      | some (JsonVal.str _) => true | _ => false) &&
    (match getKey o "prompt_ready_english" with
      | some (JsonVal.str _) => true | _ => false) &&
    (match getKey o "removed_fillers" with
      | some v2 => isBool v2 | none => true) &&
    (match getKey o "meaning_change_risk" with
      | some (JsonVal.str s) => s = "low" || s = "medium" || s = "high"
      | _ => false) &&
    (match getKey o "entities" with
      | some (JsonVal.arr es) => es.all entity_ok | _ => false) &&
    (match getKey o "confidence_score" with
      | some (JsonVal.num _) => true | _ => false)
  | _ => false

/-- The fallback shape required of every failure result of the enrichment
client: error set, risk high, confidence 0, languages [unknown], and both
text fields equal to the verbatim input. -/
def isFallbackFor (raw : String) (o : List (String × JsonVal)) : Prop :=
  (∃ e, getKey o "error" = some (JsonVal.str e)) ∧
  getKey o "meaning_change_risk" = some (JsonVal.str "high") ∧
  getKey o "confidence_score" = some (JsonVal.num 0) ∧
  getKey o "detected_languages" = some (JsonVal.arr [JsonVal.str "unknown"]) ∧
  getKey o "cleaned_english_meaning" = some (JsonVal.str raw) ∧
  getKey o "prompt_ready_english" = some (JsonVal.str raw)

/-- The per-session mutable state of `websocket_transcribe`
(main.py lines 62-66). -/
structure SessionState where
  client_connected : Bool
  should_stop : Bool
  accumulated_transcript : String
  current_mode : ProcessingMode

/-- main.py lines 62-66: the state right after the provider connection is
established. -/
def initial_session_state : SessionState :=
  { client_connected := true
    should_stop := false
    accumulated_transcript := ""
    current_mode := ProcessingMode.BALANCED }

/-- An outbound JSON message to the client (main.py; the `type` discriminator
becomes the constructor). -/
inductive ClientMsg where
  | connected (message : String)
  | session_started (session_id : JsonVal)
  | transcript (text : String) (is_final : Bool) (language : Option String)
  | processing (message : String)
  | error (message : String)

/-- main.py lines 68-79 (`safe_send`). `ok` is whether the underlying
`websocket.send_json` succeeds. Returns the new session state, the boolean
handed back to the caller, and whether a transport write was attempted.
The function is total: no exception escapes to the caller. -/
def safe_send (st : SessionState) (m : ClientMsg) (ok : Bool) :
    SessionState × Bool × Bool :=
  if st.client_connected = false then (st, false, false)
  else if ok then (st, true, true)
  else ({ st with client_connected := false }, false, true)

/-- A sequence of `safe_send` calls threaded through the session state;
returns per-call (delivered, write attempted) and the final state. -/
def run_sends (st : SessionState) :
    List (ClientMsg × Bool) → List (Bool × Bool) × SessionState
  | [] => ([], st)
  | x :: xs =>
    (((safe_send st x.1 x.2).2.1, (safe_send st x.1 x.2).2.2) ::
       (run_sends (safe_send st x.1 x.2).1 xs).1,
     (run_sends (safe_send st x.1 x.2).1 xs).2)

/-- A parsed provider frame, restricted to the fields
`receive_from_elevenlabs` reads (main.py lines 144-184); per the provider's
wire contract these carry the types given here, with `Option` marking keys
that may be absent. -/
structure ProviderData where
  message_type : String
  session_id : JsonVal
  text : String
  language_code : Option String
  error_field : Option String

/-- Python substring containment `sub in s`. -/
def strContains (s sub : String) : Bool := (s.splitOn sub).length ≥ 2

/-- Python `str.strip()`: drop whitespace from both ends. -/
def pyStrip (s : String) : String :=
  String.mk
    (((s.toList.dropWhile Char.isWhitespace).reverse.dropWhile
        Char.isWhitespace).reverse)

/-- main.py line 175: the transcript accumulator appends a space then the
segment text. -/
def appendFinal (acc text : String) : String := acc ++ " " ++ text

/-- main.py line 251: clearing the accumulator resets it to empty. -/
def clear_transcript (acc : String) : String := ""

/-- One iteration of the provider receive loop on a parsed event
(main.py lines 139-185). `ok` is the transport outcome of the single
`safe_send` the branch performs, if any. Returns the new state, the
messages passed to `safe_send` with their delivery result, and the texts
for which `asyncio.create_task(process_with_gemini ...)` was called. -/
def handle_provider_event (st : SessionState) (d : ProviderData) (ok : Bool) :
    SessionState × List (ClientMsg × Bool) × List String :=
  if st.should_stop = true ∨ st.client_connected = false then (st, [], [])
  else if d.message_type = "session_started" then
    ((safe_send st (ClientMsg.session_started d.session_id) ok).1,
     [(ClientMsg.session_started d.session_id,
       (safe_send st (ClientMsg.session_started d.session_id) ok).2.1)], [])
  else if d.message_type = "partial_transcript" then
    if d.text ≠ "" then
      ((safe_send st (ClientMsg.transcript d.text false none) ok).1,
       [(ClientMsg.transcript d.text false none,
         (safe_send st (ClientMsg.transcript d.text false none) ok).2.1)], [])
    else (st, [], [])
  else if d.message_type = "committed_transcript" ∨
          d.message_type = "committed_transcript_with_timestamps" then
    if (pyStrip d.text) ≠ "" then
      ({ (safe_send st
            (ClientMsg.transcript (pyStrip d.text) true
              (some (d.language_code.getD "en"))) ok).1 with
          accumulated_transcript :=
            appendFinal st.accumulated_transcript (pyStrip d.text) },
       [(ClientMsg.transcript (pyStrip d.text) true
           (some (d.language_code.getD "en")),
         (safe_send st
            (ClientMsg.transcript (pyStrip d.text) true
              (some (d.language_code.getD "en"))) ok).2.1)],
       if (safe_send st
            (ClientMsg.transcript (pyStrip d.text) true
              (some (d.language_code.getD "en"))) ok).1.client_connected
       then [(pyStrip d.text)] else [])
    else (st, [], [])
  else if strContains d.message_type "error" then
    ((safe_send st (ClientMsg.error (d.error_field.getD "Unknown error")) ok).1,
     [(ClientMsg.error (d.error_field.getD "Unknown error"),
       (safe_send st (ClientMsg.error (d.error_field.getD "Unknown error")) ok).2.1)],
     [])
  else (st, [], [])

/-- An inbound client frame, as seen by one iteration of
`receive_from_client` (main.py lines 200-255). Text frames carry the result
of `json.loads` on their payload (`none` = JSONDecodeError, silently
ignored). -/
inductive ClientFrame where
  | timeoutRetry
  | disconnectMsg
  | audio (bytes : List Nat)
  | textFrame (parsed : Option JsonVal)

/-- Index into the base64 alphabet. -/
def b64char (n : Nat) : Char :=
  "ABCDEFGHIJKLMNOPQRSTUVWXYZabcdefghijklmnopqrstuvwxyz0123456789+/".toList.getD n '='

/-- Standard base64 of a byte sequence (Python `base64.b64encode`), with
padding. -/
def b64encode : List Nat → String
  | [] => ""
  | [a] => String.mk [b64char (a / 4), b64char (a % 4 * 16), '=', '=']
  | [a, b] =>
    String.mk [b64char (a / 4), b64char (a % 4 * 16 + b / 16),
               b64char (b % 16 * 4), '=']
  | a :: b :: c :: rest =>
    String.mk [b64char (a / 4), b64char (a % 4 * 16 + b / 16),
               b64char (b % 16 * 4 + c / 64), b64char (c % 64)] ++ b64encode rest

/-- main.py lines 220-223: the audio-chunk wire message sent to the
provider. -/
def audio_chunk_msg (audio_base_64 : String) : List (String × JsonVal) :=
  [("message_type", JsonVal.str "input_audio_chunk"),
   ("audio_base_64", JsonVal.str audio_base_64)]

/-- main.py lines 237-241: the commit wire message sent to the provider on a
client `stop` control message. -/
def commit_msg : List (String × JsonVal) :=
  [("message_type", JsonVal.str "input_audio_chunk"),
   ("audio_base_64", JsonVal.str ""),
   ("commit", JsonVal.bool true)]

/-- main.py lines 246-247: `mode = data.get("mode", "balanced");
current_mode = STRICT if mode == "strict" else BALANCED`. -/
def set_mode_value (d : List (String × JsonVal)) : ProcessingMode :=
  match getKey d "mode" with
  | some (JsonVal.str s) =>
    if s = "strict" then ProcessingMode.STRICT else ProcessingMode.BALANCED
  | some _ => ProcessingMode.BALANCED
  | none => ProcessingMode.BALANCED

/-- The control-message dispatch of the client loop on a parsed text frame
(main.py lines 232-252): `stop` sends the commit frame to the provider,
`set_mode` updates the mode, `clear` resets the accumulator; anything else
is ignored. -/
def handle_control (st : SessionState) (d : List (String × JsonVal)) :
    SessionState × List (List (String × JsonVal)) :=
  match getKey d "type" with
  | some (JsonVal.str s) =>
    if s = "stop" then (st, [commit_msg])
    else if s = "set_mode" then
      ({ st with current_mode := set_mode_value d }, [])
    else if s = "clear" then
      ({ st with accumulated_transcript :=
           clear_transcript st.accumulated_transcript }, [])
    else (st, [])
  | _ => (st, [])

/-- One iteration of the client receive loop on one frame
(main.py lines 200-264). Returns the new state and the wire messages sent to
the provider connection. A text frame whose JSON parses to a non-object
raises at `data.get`, which the outer handler turns into loop exit with both
flags set. -/
def receive_client_step (st : SessionState) (frame : ClientFrame) :
    SessionState × List (List (String × JsonVal)) :=
  if st.should_stop = true ∨ st.client_connected = false then (st, [])
  else
    match frame with
    | ClientFrame.timeoutRetry => (st, [])
    | ClientFrame.disconnectMsg =>
      ({ st with client_connected := false, should_stop := true }, [])
    | ClientFrame.audio data => (st, [audio_chunk_msg (b64encode data)])
    | ClientFrame.textFrame none => (st, [])
    | ClientFrame.textFrame (some (JsonVal.obj d)) => handle_control st d
    | ClientFrame.textFrame (some _) =>
      ({ st with client_connected := false, should_stop := true }, [])

/-- The client receive loop folded over a list of frames. -/
def receive_client_run (st : SessionState) :
    List ClientFrame → SessionState × List (List (String × JsonVal))
  | [] => (st, [])
  | f :: fs =>
    ((receive_client_run (receive_client_step st f).1 fs).1,
     (receive_client_step st f).2 ++
       (receive_client_run (receive_client_step st f).1 fs).2)

/-- An observable action of the session start-up path
(main.py lines 48-101). -/
inductive SessionAction where
  | send_direct (m : ClientMsg)
  | close_client
  | connect_provider

/-- Whether a start-up action is a direct error send to the client. -/
def is_error_send : SessionAction → Bool
  | SessionAction.send_direct (ClientMsg.error _) => true
  | _ => false

/-- main.py lines 48-95: the actions `websocket_transcribe` performs from
accept up to the provider connection attempt. With no API key it sends one
error message and closes inside a try/except-pass (if the send itself raises,
`send_ok = false`, the close is skipped and the exception is swallowed),
then returns; otherwise it proceeds to `websockets.connect`. -/
def websocket_transcribe_startup (api_key : Option String) (send_ok : Bool) :
    List SessionAction :=
  match api_key with
  | none =>
    if send_ok then
      [SessionAction.send_direct
         (ClientMsg.error "ElevenLabs API key not configured"),
       SessionAction.close_client]
    else
      [SessionAction.send_direct
         (ClientMsg.error "ElevenLabs API key not configured")]
  | some _ => [SessionAction.connect_provider]

/-- Key assignment followed by lookup of the same key yields the assigned
value. -/
theorem getKey_setKey (o : List (String × JsonVal)) (k : String) (v : JsonVal) :
    getKey (setKey o k v) k = some v := by
  simp [getKey, setKey]

/-- C1: for every input text and mode, the enrichment client's process
operation never raises (the embedding is a total function); every failure
path — missing credential, non-success status, empty/missing payload,
malformed structured output, timeout, or any transport error, i.e. any run
in which the try-block does not produce a parsed output object — returns a
well-formed fallback result with the error field set, risk high, confidence
0, detected languages [unknown], and both text fields equal to the verbatim
input. -/
theorem process_transcript_failure_fallback
    (loads : String → Option JsonVal) (api_key : Option String)
    (raw : String) (mode : ProcessingMode) (context : Option String)
    (turns : List (String × String)) (outcome : CallOutcome)
    (hfail : api_key = none ∨
             ∃ e, extract_output loads outcome = Except.error e) :
    isFallbackFor raw
      (process_transcript loads api_key raw mode context turns outcome) := by
  cases api_key with
  | none => exact ⟨⟨"Gemini API key not configured", rfl⟩, rfl, rfl, rfl, rfl, rfl⟩
  | some k =>
    rcases hfail with h | ⟨e, he⟩
    · cases h
    · show isFallbackFor raw
        (process_transcript loads (some k) raw mode context turns outcome)
      unfold process_transcript
      rw [he]
      exact ⟨⟨e, rfl⟩, rfl, rfl, rfl, rfl, rfl⟩

/-- C1 witness: a timed-out call with a configured key yields the fallback
shape for the input "hi". -/
theorem process_transcript_failure_fallback_witness :
    isFallbackFor "hi"
      (process_transcript (fun _ => none) (some "k") "hi"
        ProcessingMode.BALANCED none [] CallOutcome.timeout) :=
  process_transcript_failure_fallback _ _ _ _ _ _ _
    (Or.inr ⟨"API timeout", rfl⟩)

/-- C2: on every return path — missing key, every fallback, and a successful
response regardless of what the upstream echoed for the field or whether it
was present — the result's raw_transcript field equals the exact input
text. -/
theorem process_transcript_preserves_raw_transcript
    (loads : String → Option JsonVal) (api_key : Option String)
    (raw : String) (mode : ProcessingMode) (context : Option String)
    (turns : List (String × String)) (outcome : CallOutcome) :
    getKey (process_transcript loads api_key raw mode context turns outcome)
      "raw_transcript" = some (JsonVal.str raw) := by
  cases api_key with
  | none => rfl
  | some k =>
    unfold process_transcript
    cases h : extract_output loads outcome with
    | error e => rfl
    | ok output => exact getKey_setKey output "raw_transcript" (JsonVal.str raw)

/-- C4 counterexample: a response whose generated text parses as the JSON
object with the single key "foo" — violating the fixed result schema — is
not treated as malformed output: process returns that non-conforming object
(with raw_transcript overwritten) and not the fallback (its error field is
absent, while every fallback has it set). -/
theorem schema_violation_returned_counterexample :
    process_transcript
        (fun _ => some (JsonVal.obj [("foo", JsonVal.str "bar")]))
        (some "key") "hi" ProcessingMode.BALANCED none []
        (CallOutcome.response 200
          (JsonVal.obj [("candidates", JsonVal.arr [JsonVal.obj
            [("content", JsonVal.obj [("parts", JsonVal.arr [JsonVal.obj
              [("text", JsonVal.str "x")]])])]])])) =
      [("raw_transcript", JsonVal.str "hi"), ("foo", JsonVal.str "bar")] ∧
    matches_schema (JsonVal.obj
      [("raw_transcript", JsonVal.str "hi"), ("foo", JsonVal.str "bar")]) =
      false ∧
    getKey [("raw_transcript", JsonVal.str "hi"), ("foo", JsonVal.str "bar")]
      "error" = none :=
  ⟨rfl, rfl, rfl⟩

/-- C4 amended: only a generated text that fails to parse as JSON (or parses
to a non-object) is treated as malformed output; a text that parses as a
JSON object is returned with just raw_transcript overwritten, even when it
violates the fixed result schema. -/
theorem parsed_object_bypasses_schema_check
    (loads : String → Option JsonVal) (k raw : String)
    (mode : ProcessingMode) (context : Option String)
    (turns : List (String × String)) (outcome : CallOutcome)
    (output : List (String × JsonVal))
    (hok : extract_output loads outcome = Except.ok output)
    (hbad : matches_schema (JsonVal.obj output) = false) :
    process_transcript loads (some k) raw mode context turns outcome =
      setKey output "raw_transcript" (JsonVal.str raw) := by
  unfold process_transcript
  rw [hok]

/-- C4 amended witness: the schema-violating object of the counterexample
run is returned as-is with raw_transcript overwritten. -/
theorem parsed_object_bypasses_schema_check_witness :
    process_transcript
        (fun _ => some (JsonVal.obj [("foo", JsonVal.str "bar")]))
        (some "key") "yo" ProcessingMode.STRICT none []
        (CallOutcome.response 200
          (JsonVal.obj [("candidates", JsonVal.arr [JsonVal.obj
            [("content", JsonVal.obj [("parts", JsonVal.arr [JsonVal.obj
              [("text", JsonVal.str "x")]])])]])])) =
      setKey [("foo", JsonVal.str "bar")] "raw_transcript" (JsonVal.str "yo") :=
  parsed_object_bypasses_schema_check _ _ _ _ _ _ _ _ rfl rfl

/-- With the alive flag already false, every further safe_send returns false
without attempting a transport write, and the flag stays false. -/
theorem run_sends_dead (future : List (ClientMsg × Bool)) (st : SessionState)
    (h : st.client_connected = false) :
    (∀ p ∈ (run_sends st future).1, p = (false, false)) ∧
    (run_sends st future).2.client_connected = false := by
  induction future generalizing st with
  | nil => exact ⟨fun p hp => absurd hp (List.not_mem_nil p), h⟩
  | cons x xs ih =>
    have hs : safe_send st x.1 x.2 = (st, false, false) := by
      simp [safe_send, h]
    rcases ih st h with ⟨ih1, ih2⟩
    simp only [run_sends, hs]
    refine ⟨?_, ih2⟩
    intro p hp
    rcases List.mem_cons.mp hp with h1 | h2
    · exact h1
    · exact ih1 p h2

/-- C3: safe_send never raises (the embedding is a total function); once a
send from a live state fails it returns false and flips the alive flag, and
from then on every subsequent send — whatever its message or transport
outcome — returns false and attempts no transport write, with the flag
remaining false forever. -/
theorem safe_send_failure_permanent
    (st : SessionState) (m : ClientMsg) (future : List (ClientMsg × Bool))
    (halive : st.client_connected = true) :
    (safe_send st m false).2.1 = false ∧
    (safe_send st m false).1.client_connected = false ∧
    (∀ p ∈ (run_sends (safe_send st m false).1 future).1,
       p = (false, false)) ∧
    (run_sends (safe_send st m false).1 future).2.client_connected = false := by
  have h1 : safe_send st m false =
      ({ st with client_connected := false }, false, true) := by
    simp [safe_send, halive]
  rw [h1]
  have h2 := run_sends_dead future { st with client_connected := false } rfl
  exact ⟨rfl, rfl, h2.1, h2.2⟩

/-- C3 witness: a failing send from the initial (alive) state returns
false. -/
theorem safe_send_failure_permanent_witness :
    (safe_send initial_session_state (ClientMsg.processing "x") false).2.1 =
      false :=
  (safe_send_failure_permanent initial_session_state
    (ClientMsg.processing "x") [] rfl).1

/-- C5 counterexample: a committed-transcript event with non-empty trimmed
text "hello", received on a live session whose relay send fails, dispatches
zero enrichment tasks — not exactly one. -/
theorem committed_dispatch_counterexample :
    initial_session_state.client_connected = true ∧
    (pyStrip "hello") ≠ "" ∧
    (handle_provider_event initial_session_state
      ⟨"committed_transcript", JsonVal.null, "hello", none, none⟩
      false).2.2 = [] :=
  ⟨rfl, by decide, rfl⟩

/-- C5 amended: for a committed (final) transcript event received on a live
session, if the trimmed text is non-empty then the segment is appended to
the accumulator and exactly one enrichment task is dispatched provided the
relay send to the client succeeds; if that send fails the segment is still
appended but no task is dispatched; an event whose text is empty or
whitespace-only dispatches nothing and leaves the state unchanged. -/
theorem committed_segment_dispatch
    (st : SessionState) (d : ProviderData) (ok : Bool)
    (halive : st.client_connected = true) (hstop : st.should_stop = false)
    (hty : d.message_type = "committed_transcript" ∨
           d.message_type = "committed_transcript_with_timestamps") :
    ((pyStrip d.text) ≠ "" → ok = true →
       (handle_provider_event st d ok).2.2 = [(pyStrip d.text)] ∧
       (handle_provider_event st d ok).1.accumulated_transcript =
         appendFinal st.accumulated_transcript (pyStrip d.text)) ∧
    ((pyStrip d.text) ≠ "" → ok = false →
       (handle_provider_event st d ok).2.2 = [] ∧
       (handle_provider_event st d ok).1.accumulated_transcript =
         appendFinal st.accumulated_transcript (pyStrip d.text)) ∧
    ((pyStrip d.text) = "" →
       (handle_provider_event st d ok).2.2 = [] ∧
       (handle_provider_event st d ok).1 = st) := by
  have hcond : ¬ (st.should_stop = true ∨ st.client_connected = false) := by
    rw [halive, hstop]; simp
  have hne1 : ¬ d.message_type = "session_started" := by
    rcases hty with h | h <;> rw [h] <;> decide
  have hne2 : ¬ d.message_type = "partial_transcript" := by
    rcases hty with h | h <;> rw [h] <;> decide
  unfold handle_provider_event
  rw [if_neg hcond, if_neg hne1, if_neg hne2, if_pos hty]
  by_cases htr : (pyStrip d.text) = ""
  · rw [if_neg (not_not_intro htr)]
    refine And.intro ?_ (And.intro ?_ ?_)
    · intro hc _; exact absurd htr hc
    · intro hc _; exact absurd htr hc
    · intro _; exact ⟨rfl, rfl⟩
  · rw [if_pos htr]
    cases ok with
    | false =>
      have hsend : safe_send st
          (ClientMsg.transcript (pyStrip d.text) true
            (some (d.language_code.getD "en"))) false =
          ({ st with client_connected := false }, false, true) := by
        simp [safe_send, halive]
      rw [hsend]
      refine And.intro ?_ (And.intro ?_ ?_)
      · intro _ h; cases h
      · intro _ _; exact ⟨rfl, rfl⟩
      · intro h; exact absurd h htr
    | true =>
      have hsend : safe_send st
          (ClientMsg.transcript (pyStrip d.text) true
            (some (d.language_code.getD "en"))) true = (st, true, true) := by
        simp [safe_send, halive]
      rw [hsend]
      refine And.intro ?_ (And.intro ?_ ?_)
      · intro _ _
        refine And.intro ?_ rfl
        simp [halive]
      · intro _ h; cases h
      · intro h; exact absurd h htr

/-- C5 amended witness: a committed event with text "book a flight" on the
initial state with a successful relay dispatches exactly that segment. -/
theorem committed_segment_dispatch_witness :
    (handle_provider_event initial_session_state
      ⟨"committed_transcript", JsonVal.null, "book a flight", none, none⟩
      true).2.2 = [(pyStrip "book a flight")] :=
  ((committed_segment_dispatch initial_session_state
      ⟨"committed_transcript", JsonVal.null, "book a flight", none, none⟩
      true rfl rfl (Or.inl rfl)).1 (by decide) rfl).1

set_option maxRecDepth 16384 in
/-- C6: the session's processing mode starts as balanced; a set_mode control
message yields strict exactly when its mode field is the literal string
"strict" (any other value, any non-string value, and a missing field all
yield balanced); and the enrichment request uses the strict instruction
template exactly when the mode is strict. -/
theorem mode_defaults_and_template_selection :
    initial_session_state.current_mode = ProcessingMode.BALANCED ∧
    (∀ (st : SessionState) (d : List (String × JsonVal)),
       st.client_connected = true → st.should_stop = false →
       getKey d "type" = some (JsonVal.str "set_mode") →
       ((receive_client_step st
           (ClientFrame.textFrame (some (JsonVal.obj d)))).1.current_mode =
             ProcessingMode.STRICT ↔
        getKey d "mode" = some (JsonVal.str "strict"))) ∧
    (∀ m, select_system_prompt m = STRICT_SYSTEM_PROMPT ↔
            m = ProcessingMode.STRICT) := by
  refine ⟨rfl, ?_, ?_⟩
  · intro st d halive hstop hty
    have hstep0 : receive_client_step st
        (ClientFrame.textFrame (some (JsonVal.obj d))) = handle_control st d := by
      unfold receive_client_step
      rw [if_neg (by rw [halive, hstop]; simp)]
    have hstep : (receive_client_step st
        (ClientFrame.textFrame (some (JsonVal.obj d)))).1.current_mode =
        set_mode_value d := by
      rw [hstep0]
      unfold handle_control
      rw [hty]
      rfl
    rw [hstep]
    rcases hg : getKey d "mode" with _ | v
    · simp [set_mode_value, hg]
    · rcases v with _ | b | q | s | es | fs
      · simp [set_mode_value, hg]
      · simp [set_mode_value, hg]
      · simp [set_mode_value, hg]
      · by_cases hs : s = "strict" <;> simp [set_mode_value, hg, hs]
      · simp [set_mode_value, hg]
      · simp [set_mode_value, hg]
  · intro m
    cases m <;> decide

/-- C6 witness: a set_mode message whose mode field is "strict" switches the
initial session to strict mode. -/
theorem mode_defaults_and_template_selection_witness :
    (receive_client_step initial_session_state
       (ClientFrame.textFrame (some (JsonVal.obj
         [("type", JsonVal.str "set_mode"),
          ("mode", JsonVal.str "strict")])))).1.current_mode =
      ProcessingMode.STRICT ↔
    getKey [("type", JsonVal.str "set_mode"),
            ("mode", JsonVal.str "strict")] "mode" =
      some (JsonVal.str "strict") :=
  mode_defaults_and_template_selection.2.1 initial_session_state
    [("type", JsonVal.str "set_mode"), ("mode", JsonVal.str "strict")]
    rfl rfl rfl

/-- C7: with the STT-provider credential absent at connection accept, the
session performs exactly one error send (carrying the configuration-error
detail), never attempts a provider connection, and — when the send itself
does not fail — closes the client connection before terminating. -/
theorem missing_credential_startup (send_ok : Bool) :
    ((websocket_transcribe_startup none send_ok).filter is_error_send).length
      = 1 ∧
    SessionAction.connect_provider ∉ websocket_transcribe_startup none send_ok ∧
    (send_ok = true → websocket_transcribe_startup none send_ok =
      [SessionAction.send_direct
         (ClientMsg.error "ElevenLabs API key not configured"),
       SessionAction.close_client]) := by
  cases send_ok <;>
    simp [websocket_transcribe_startup, is_error_send]

/-- C7 witness: with a successful error send, start-up performs exactly the
error send followed by the close. -/
theorem missing_credential_startup_witness :
    websocket_transcribe_startup none true =
      [SessionAction.send_direct
         (ClientMsg.error "ElevenLabs API key not configured"),
       SessionAction.close_client] :=
  (missing_credential_startup true).2.2 rfl

/-- A live, non-stopped session forwards a binary frame as one
base64-encoded audio chunk and keeps its state unchanged. -/
theorem step_audio (st : SessionState) (c : List Nat)
    (halive : st.client_connected = true) (hstop : st.should_stop = false) :
    receive_client_step st (ClientFrame.audio c) =
      (st, [audio_chunk_msg (b64encode c)]) := by
  unfold receive_client_step
  rw [if_neg (by rw [halive, hstop]; simp)]

/-- A live, non-stopped session maps a stop control message to one commit
frame and keeps its state unchanged (in particular the stop flag stays
unset). -/
theorem step_stop (st : SessionState)
    (halive : st.client_connected = true) (hstop : st.should_stop = false) :
    receive_client_step st
      (ClientFrame.textFrame (some (JsonVal.obj
        [("type", JsonVal.str "stop")]))) = (st, [commit_msg]) := by
  unfold receive_client_step
  rw [if_neg (by rw [halive, hstop]; simp)]
  rfl

/-- C8: binary audio frames followed by a stop control message produce, in
order, one base64 audio-chunk wire message per frame and then the commit
frame; the session state is unchanged throughout — in particular the stop
flag is not set and the connection stays alive, so both loops keep
running. -/
theorem audio_frames_then_stop (st : SessionState) (chunks : List (List Nat))
    (halive : st.client_connected = true) (hstop : st.should_stop = false) :
    receive_client_run st
      (chunks.map ClientFrame.audio ++
       [ClientFrame.textFrame (some (JsonVal.obj
          [("type", JsonVal.str "stop")]))]) =
      (st, chunks.map (fun c => audio_chunk_msg (b64encode c)) ++
           [commit_msg]) := by
  induction chunks with
  | nil =>
    simp [receive_client_run, step_stop st halive hstop]
  | cons c cs ih =>
    simp [receive_client_run, step_audio st c halive hstop, ih]

/-- C8 witness: two concrete binary frames then stop yield the two chunks
then the commit frame, on the initial state. -/
theorem audio_frames_then_stop_witness :
    receive_client_run initial_session_state
      ([[0, 1, 2], [255]].map ClientFrame.audio ++
       [ClientFrame.textFrame (some (JsonVal.obj
          [("type", JsonVal.str "stop")]))]) =
      (initial_session_state,
       [[0, 1, 2], [255]].map (fun c => audio_chunk_msg (b64encode c)) ++
         [commit_msg]) :=
  audio_frames_then_stop initial_session_state [[0, 1, 2], [255]] rfl rfl

/-- C9: clearing the accumulator yields the empty transcript regardless of
prior content, and appending a final segment changes the transcript exactly
by a single space followed by the text, so appending the same segment twice
duplicates it. -/
theorem accumulator_clear_and_append :
    (∀ acc : String, clear_transcript acc = "") ∧
    (∀ acc text : String, appendFinal acc text = acc ++ " " ++ text) ∧
    (∀ acc text : String,
       appendFinal (appendFinal acc text) text =
         acc ++ " " ++ text ++ " " ++ text) :=
  ⟨fun _ => rfl, fun _ _ => rfl, fun _ _ => rfl⟩

/-- C10: every transcript message the provider loop passes to the guard with
is_final true carries a language field equal to the provider-supplied
language code, or the literal "en" when the provider omitted it; a
transcript message with is_final false never carries a language field. -/
theorem final_transcript_language_field
    (st : SessionState) (d : ProviderData) (ok : Bool)
    (m : ClientMsg) (del : Bool)
    (hmem : (m, del) ∈ (handle_provider_event st d ok).2.1)
    (t : String) (fin : Bool) (lang : Option String)
    (hm : m = ClientMsg.transcript t fin lang) :
    (fin = true → lang = some (d.language_code.getD "en")) ∧
    (fin = false → lang = none) := by
  subst hm
  unfold handle_provider_event at hmem
  by_cases h0 : st.should_stop = true ∨ st.client_connected = false
  · rw [if_pos h0] at hmem
    exact absurd hmem (List.not_mem_nil _)
  · rw [if_neg h0] at hmem
    by_cases h1 : d.message_type = "session_started"
    · rw [if_pos h1] at hmem
      simp at hmem
    · rw [if_neg h1] at hmem
      by_cases h2 : d.message_type = "partial_transcript"
      · rw [if_pos h2] at hmem
        by_cases htx : d.text ≠ ""
        · rw [if_pos htx] at hmem
          simp at hmem
          obtain ⟨⟨ht, hfin, hlang⟩, hdel⟩ := hmem
          subst hfin
          subst hlang
          exact ⟨fun h => (nomatch h), fun _ => rfl⟩
        · rw [if_neg htx] at hmem
          exact absurd hmem (List.not_mem_nil _)
      · rw [if_neg h2] at hmem
        by_cases h3 : d.message_type = "committed_transcript" ∨
            d.message_type = "committed_transcript_with_timestamps"
        · rw [if_pos h3] at hmem
          by_cases htr : (pyStrip d.text) ≠ ""
          · rw [if_pos htr] at hmem
            simp at hmem
            obtain ⟨⟨ht, hfin, hlang⟩, hdel⟩ := hmem
            subst hfin
            subst hlang
            exact ⟨fun _ => rfl, fun h => nomatch h⟩
          · rw [if_neg htr] at hmem
            exact absurd hmem (List.not_mem_nil _)
        · rw [if_neg h3] at hmem
          by_cases h4 : strContains d.message_type "error" = true
          · rw [if_pos h4] at hmem
            simp at hmem
          · rw [if_neg h4] at hmem
            exact absurd hmem (List.not_mem_nil _)

/-- C10 witness: a partial transcript relayed from the initial state carries
no language field. -/
theorem final_transcript_language_field_witness :
    (none : Option String) = none :=
  (final_transcript_language_field initial_session_state
      ⟨"partial_transcript", JsonVal.null, "hi", none, none⟩ true
      (ClientMsg.transcript "hi" false none) true
      (List.mem_cons_self _ _) "hi" false none rfl).2 rfl

end VoicePromptStudio
